import Mathlib

/-
Shallow embedding of proxy-server.py, the Bitcraft Market Helper CORS proxy.

Modelling conventions:

* Raw bodies are byte lists (`List Nat`, one octet per entry); text written
  to the wire goes through a real UTF-8 encoder `strToBytes`.
* The network side of `urllib.request.urlopen` is an oracle
  `UpstreamReq → UpstreamResult`.  `success` models a 2xx reply (urlopen
  raises for anything else); its status field is exposed but the handler
  never reads it.  `httpError` models a raised `urllib.error.HTTPError`,
  whose optional body is the utf-8-decoded `e.read()` (`none` when `e.fp`
  is absent).  `exn` models any other exception and carries `str(e)`.
* `json.loads` / `json.dumps` applied to the POST payload are parameters
  `loads` / `dumps` over an abstract payload type: the handler only pipes
  the parsed value straight back through `dumps`, so nothing more is needed.
  `loads` also covers the preceding `.decode` of the body bytes.
* `json.dumps` applied to the literal one-key dict `\x7b'error': msg\x7d` is
  modelled concretely by `jsonDumpsError`, including Python's default
  ensure_ascii escaping.
* `SimpleHTTPRequestHandler`'s static file serving (`super().do_GET()`) is a
  parameter giving status, headers and body; all of its writes flush through
  the overridden `end_headers`, which `mkResponse` models by appending the
  three CORS headers to every response the handler emits.
-/

/-- UTF-8 encoding of one character, as `bytes` octets. -/
def utf8EncodeChar (c : Char) : List Nat :=
  let n := c.toNat
  if n < 128 then [n]
  else if n < 2048 then [192 + n / 64, 128 + n % 64]
  else if n < 65536 then [224 + n / 4096, 128 + n / 64 % 64, 128 + n % 64]
  else [240 + n / 262144, 128 + n / 4096 % 64, 128 + n / 64 % 64, 128 + n % 64]

/-- Model of Python `s.encode('utf-8')`. -/
def strToBytes (s : String) : List Nat :=
  s.data.foldr (fun c acc => utf8EncodeChar c ++ acc) []

/-- Lowercase hexadecimal digit, as used by Python's `'\u%04x' % n`. -/
def hexDigitChar (n : Nat) : Char :=
  if n < 10 then Char.ofNat (48 + n) else Char.ofNat (87 + n)

/-- Four lowercase hex digits of `n`, as in Python's `'%04x'`. -/
def hex4 (n : Nat) : List Char :=
  [hexDigitChar (n / 4096 % 16), hexDigitChar (n / 256 % 16),
   hexDigitChar (n / 16 % 16), hexDigitChar (n % 16)]

/-- Escaping of one character inside a JSON string literal, following
Python `json.dumps` with its default `ensure_ascii=True`: the short escapes
of ESCAPE_DCT, `\u00xx` for other control characters, `\uxxxx` (with a
surrogate pair above the BMP) for everything outside `0x20`-`0x7e`. -/
def jsonEscapeChar (c : Char) : List Char :=
  if c = '\\' then ['\\', '\\']
  else if c = '"' then ['\\', '"']
  else if c.toNat = 8 then ['\\', 'b']
  else if c.toNat = 12 then ['\\', 'f']
  else if c = '\n' then ['\\', 'n']
  else if c = '\r' then ['\\', 'r']
  else if c = '\t' then ['\\', 't']
  else if c.toNat < 32 ∨ c.toNat > 126 then
    if c.toNat < 65536 then '\\' :: 'u' :: hex4 c.toNat
    else
      ('\\' :: 'u' :: hex4 (55296 + (c.toNat - 65536) / 1024)) ++
      ('\\' :: 'u' :: hex4 (56320 + (c.toNat - 65536) % 1024))
  else [c]

/-- Model of the Python JSON string literal for `s` (quotes included). -/
def pyJsonQuote (s : String) : String :=
  ⟨'"' :: s.data.foldr (fun c acc => jsonEscapeChar c ++ acc) ['"']⟩

/-- Model of Python `json.dumps(\x7b'error': msg\x7d)`. -/
def jsonDumpsError (msg : String) : String :=
  "\x7b\"error\": " ++ pyJsonQuote msg ++ "\x7d"

/-- Model of Python `json.dumps(\x7b'error': msg\x7d).encode()`. -/
def jsonErrorBytes (msg : String) : List Nat :=
  strToBytes (jsonDumpsError msg)

/-- Does `xs` contain `pat` as a contiguous sublist? -/
def containsSub (pat : List Char) : List Char → Bool
  | [] => pat.isPrefixOf []
  | c :: rest => pat.isPrefixOf (c :: rest) || containsSub pat rest

/-- Fuel-indexed engine for Python `str.replace`: scan left to right,
replacing each non-overlapping occurrence of `pat`.  The fuel only serves
to make the recursion structural; one unit is spent per step and each step
consumes at least one character, so `xs.length` fuel always suffices.
(The handler only ever replaces the fixed non-empty pattern
`/api/market/item/`, so the empty-pattern corner of Python `replace` is
not modelled.) -/
def replaceAllAux (pat rep : List Char) : Nat → List Char → List Char
  | _, [] => []
  | 0, xs => xs
  | fuel + 1, c :: rest =>
    match pat with
    | [] => c :: rest
    | p :: ps =>
      if (p :: ps).isPrefixOf (c :: rest) then
        rep ++ replaceAllAux (p :: ps) rep fuel (rest.drop ps.length)
      else
        c :: replaceAllAux (p :: ps) rep fuel rest

/-- Replace every occurrence of `pat` in `xs` by `rep`, left to right. -/
def replaceAll (pat rep xs : List Char) : List Char :=
  replaceAllAux pat rep xs.length xs

/-- Model of Python `s.replace(pat, rep)` (for the non-empty `pat` the
handler uses): every occurrence is replaced, not only a leading one. -/
def pyReplace (s pat rep : String) : String :=
  ⟨replaceAll pat.data rep.data s.data⟩

/-- Model of Python `s.startswith(pre)`. -/
def pyStartsWith (s pre : String) : Bool :=
  pre.data.isPrefixOf s.data

/-- Python whitespace stripped by `int(str)`. -/
def isPySpace (c : Char) : Bool :=
  c = ' ' || c = '\t' || c = '\n' || c = '\r' || c.toNat = 11 || c.toNat = 12

/-- Decimal value of a digit character, if it is one. -/
def digitVal? (c : Char) : Option Nat :=
  if 48 ≤ c.toNat ∧ c.toNat ≤ 57 then some (c.toNat - 48) else none

/-- Value of a non-empty all-digit character list. -/
def digitsVal? (cs : List Char) : Option Nat :=
  match cs with
  | [] => none
  | _ =>
    cs.foldl
      (fun acc c =>
        match acc, digitVal? c with
        | some a, some d => some (10 * a + d)
        | _, _ => none)
      (some 0)

/-- Simplified Python `repr` of a string (single quotes, inner escaping not
modelled; no claim observes it). -/
def pyStrRepr (s : String) : String :=
  ⟨Char.ofNat 39 :: (s.data ++ [Char.ofNat 39])⟩

/-- Model of Python `int(s)` for a decimal string: surrounding whitespace
stripped, optional sign, then at least one digit (digit-grouping
underscores are not modelled; no claim exercises them).  On failure it
raises `ValueError` with the message modelled here. -/
def pyInt (s : String) : Except String Int :=
  let t := ((s.data.dropWhile isPySpace).reverse.dropWhile isPySpace).reverse
  let signDigits : Int × List Char :=
    match t with
    | '-' :: rest => (-1, rest)
    | '+' :: rest => (1, rest)
    | _ => (1, t)
  match digitsVal? signDigits.2 with
  | some n => Except.ok (signDigits.1 * (n : Int))
  | none => Except.error ("invalid literal for int() with base 10: " ++ pyStrRepr s)

/-- Model of `int(self.headers.get('Content-Length', 0))`: the missing
header defaults to the integer 0 (no parsing), a present header value is
parsed by `int`. -/
def getContentLength (h : Option String) : Except String Int :=
  match h with
  | none => Except.ok 0
  | some s => pyInt s

/-- Model of `self.rfile.read(n)` against a stream holding `data`: at most
`n` bytes are consumed.  (A negative `n` makes the underlying buffered
reader read to end of stream; no claim reaches that case.) -/
def readUpTo (data : List Nat) (n : Int) : List Nat :=
  if n < 0 then data else data.take n.toNat

/-- An outgoing request the relay hands to `urllib.request.urlopen`. -/
inductive UpstreamReq where
  | get (url : String)
  | post (url : String) (headers : List (String × String)) (body : List Nat)
deriving DecidableEq

/-- Outcome of `urllib.request.urlopen` for one request; see the header
comment for the reading of the three constructors. -/
inductive UpstreamResult where
  | success (status : Nat) (body : List Nat)
  | httpError (code : Nat) (body : Option String)
  | exn (msg : String)
deriving DecidableEq

/-- One HTTP response the handler sends back: status line, headers in the
order the handler buffers them (the automatic Server/Date headers are
elided), body bytes. -/
structure Response where
  status : Nat
  headers : List (String × String)
  body : List Nat
deriving DecidableEq

/-- The three headers the overridden `end_headers` appends to everything. -/
def corsHeaders : List (String × String) :=
  [("Access-Control-Allow-Origin", "*"),
   ("Access-Control-Allow-Methods", "GET, POST, OPTIONS"),
   ("Access-Control-Allow-Headers", "Content-Type")]

/-- The `send_response` / `send_header` / `end_headers` / `write` sequence:
every response is flushed through the overridden `end_headers`, so the
CORS headers land after whatever headers the branch set itself. -/
def mkResponse (status : Nat) (hs : List (String × String)) (body : List Nat) : Response :=
  { status := status, headers := hs ++ corsHeaders, body := body }

/-- The `Content-Type: application/json` header every relay branch sets. -/
def ctJson : List (String × String) :=
  [("Content-Type", "application/json")]

/-- The route checked by `do_GET`. -/
def itemRoute : String := "/api/market/item/"

/-- The fixed upstream base of the item endpoint. -/
def upstreamItemBase : String := "https://bitjita.com/api/market/item/"

/-- The route checked by `do_POST`. -/
def bulkRoute : String := "/api/market/prices/bulk"

/-- The fixed upstream bulk endpoint URL. -/
def bulkUpstreamUrl : String := "https://bitjita.com/api/market/prices/bulk"

/-- The upstream URL `do_GET` builds:
`f'https://bitjita.com/api/market/item/\x7bitem_id\x7d'` where
`item_id = self.path.replace('/api/market/item/', '')`. -/
def itemApiUrl (path : String) : String :=
  upstreamItemBase ++ pyReplace path itemRoute ("")

/-- Model of `CORSProxyHandler.do_GET`.  Returns the response written back
and the list of upstream requests issued, in order. -/
def do_GET (upstream : UpstreamReq → UpstreamResult)
    (staticServe : String → Nat × List (String × String) × List Nat)
    (path : String) : Response × List UpstreamReq :=
  if pyStartsWith path itemRoute then
    let req : UpstreamReq := UpstreamReq.get (itemApiUrl path)
    (match upstream req with
     | UpstreamResult.success _ data => mkResponse 200 ctJson data
     | UpstreamResult.httpError code _ =>
       mkResponse code ctJson (jsonErrorBytes ("API returned status " ++ toString code))
     | UpstreamResult.exn msg => mkResponse 500 ctJson (jsonErrorBytes msg),
     [req])
  else
    (mkResponse (staticServe path).1 (staticServe path).2.1 (staticServe path).2.2, [])

/-- Model of `CORSProxyHandler.do_POST`.  `loads` and `dumps` stand for
`json.loads` (composed with the utf-8 decode of the body bytes) and
`json.dumps` (composed with the utf-8 encode) over the parsed payload type
`J`.  `itemsLen` stands for the evaluation of
`len(request_body.get("itemIds", []))` inside the logging f-string on line
39, which runs after the parse and before the upstream `Request` is built:
it yields a count, or raises (AttributeError when the parsed value is not
a dict, TypeError when its itemIds value has no len), in which case the
generic `except Exception` branch answers 500 with `str(e)` and no
upstream request is issued.  `clHeader` is the raw `Content-Length` header
value; `rfileData` is what the request stream holds. -/
def do_POST {J : Type} (loads : List Nat → Except String J) (dumps : J → List Nat)
    (itemsLen : J → Except String Nat)
    (upstream : UpstreamReq → UpstreamResult)
    (path : String) (clHeader : Option String) (rfileData : List Nat) :
    Response × List UpstreamReq :=
  if pyStartsWith path bulkRoute then
    match getContentLength clHeader with
    | Except.error msg => (mkResponse 500 ctJson (jsonErrorBytes msg), [])
    | Except.ok n =>
      match loads (readUpTo rfileData n) with
      | Except.error msg => (mkResponse 500 ctJson (jsonErrorBytes msg), [])
      | Except.ok request_body =>
        match itemsLen request_body with
        | Except.error msg => (mkResponse 500 ctJson (jsonErrorBytes msg), [])
        | Except.ok _ =>
        let req : UpstreamReq :=
          UpstreamReq.post bulkUpstreamUrl [("Content-Type", "application/json")]
            (dumps request_body)
        (match upstream req with
         | UpstreamResult.success _ data => mkResponse 200 ctJson data
         | UpstreamResult.httpError code errBody =>
           let error_body := errBody.getD ("")
           if error_body ≠ "" then mkResponse code ctJson (strToBytes error_body)
           else mkResponse code ctJson (jsonErrorBytes ("API returned status " ++ toString code))
         | UpstreamResult.exn msg => mkResponse 500 ctJson (jsonErrorBytes msg),
         [req])
  else
    (mkResponse 405 ctJson (jsonErrorBytes ("Method not allowed")), [])

/-- Model of `CORSProxyHandler.do_OPTIONS`: status 200, no extra headers,
no body. -/
def do_OPTIONS : Response :=
  mkResponse 200 [] []

/-- A static file server stub used for concrete instantiations. -/
def stubStatic : String → Nat × List (String × String) × List Nat :=
  fun _ => (200, [], [])

/-- An upstream that always fails with a transport error. -/
def stubUpstream : UpstreamReq → UpstreamResult :=
  fun _ => UpstreamResult.exn ("connection refused")

/-- An upstream that always raises HTTPError 404 with a non-empty body. -/
def upstream404 : UpstreamReq → UpstreamResult :=
  fun _ => UpstreamResult.httpError 404 (some ("item missing"))

/-- An upstream that always succeeds with status 204 and a body. -/
def upstream204 : UpstreamReq → UpstreamResult :=
  fun _ => UpstreamResult.success 204 (strToBytes ("no content"))

/-- An upstream that always succeeds with status 200. -/
def upstream200 : UpstreamReq → UpstreamResult :=
  fun _ => UpstreamResult.success 200 (strToBytes ("[]"))

/-- A concrete stand-in for `json.loads` over the trivial payload type:
the empty document fails exactly as CPython's `json.loads('')` does. -/
def demoLoads : List Nat → Except String Unit :=
  fun b => if b = [] then Except.error ("Expecting value: line 1 column 1 (char 0)")
           else Except.ok ()

/-- A concrete stand-in for `json.dumps` on the trivial payload type. -/
def demoDumps : Unit → List Nat :=
  fun _ => strToBytes ("\x7b\"itemIds\": [\"1\", \"2\"]\x7d")

/-- Line 39 on the demo payload, a dict with two itemIds: len succeeds. -/
def demoItemsLen : Unit → Except String Nat :=
  fun _ => Except.ok 2

/-- The single-quote character (kept out of string literals). -/
def squote : String :=
  ⟨[Char.ofNat 39]⟩

/-- CPython `str(e)` for the AttributeError that
`request_body.get("itemIds", [])` raises when the parsed JSON value is a
list. -/
def pyListGetMsg : String :=
  squote ++ "list" ++ squote ++ " object has no attribute " ++ squote ++ "get" ++ squote

/-- `json.loads` on the concrete valid-JSON body `[1, 2]`: it parses, to
the sole inhabitant of the trivial payload type. -/
def listLoads : List Nat → Except String Unit :=
  fun b => if b = strToBytes ("[1, 2]") then Except.ok ()
           else Except.error ("Expecting value: line 1 column 1 (char 0)")

/-- Line 39 on the parsed list value: `.get` raises AttributeError. -/
def listItemsLen : Unit → Except String Nat :=
  fun _ => Except.error pyListGetMsg

theorem isPrefixOf_append_self (p xs : List Char) : p.isPrefixOf (p ++ xs) = true := by
  induction p with
  | nil => simp
  | cons a as ih => simp [List.isPrefixOf, ih]

theorem replaceAllAux_no_occur (p : Char) (ps rep : List Char) :
    ∀ (xs : List Char) (fuel : Nat), containsSub (p :: ps) xs = false →
      xs.length ≤ fuel → replaceAllAux (p :: ps) rep fuel xs = xs := by
  intro xs
  induction xs with
  | nil => intro fuel _ _; cases fuel <;> rfl
  | cons c rest ih =>
    intro fuel hc hlen
    cases fuel with
    | zero => simp at hlen
    | succ f =>
      have hc2 := hc
      simp only [containsSub, Bool.or_eq_false_iff] at hc2
      rw [replaceAllAux, ih f hc2.2 (by simpa using hlen)]
      simp [hc2.1]

theorem replaceAllAux_strip (p : Char) (ps rep xs : List Char) (fuel : Nat) :
    replaceAllAux (p :: ps) rep (fuel + 1) ((p :: ps) ++ xs) =
      rep ++ replaceAllAux (p :: ps) rep fuel xs := by
  have hpre : (p :: ps).isPrefixOf ((p :: ps) ++ xs) = true := isPrefixOf_append_self _ _
  simp only [List.cons_append] at hpre ⊢
  simp only [replaceAllAux, hpre, if_true]
  rw [List.drop_left ps xs]

theorem replaceAll_strip (p : Char) (ps xs : List Char)
    (h : containsSub (p :: ps) xs = false) :
    replaceAll (p :: ps) [] ((p :: ps) ++ xs) = xs := by
  have hlen : ((p :: ps) ++ xs).length = (ps.length + xs.length) + 1 := by
    simp [List.length_append]
  rw [replaceAll, hlen, replaceAllAux_strip]
  rw [replaceAllAux_no_occur p ps [] xs (ps.length + xs.length) h (by omega)]
  simp

theorem pyReplace_strip (pre X : String) (hne : pre.data ≠ [])
    (hX : containsSub pre.data X.data = false) :
    pyReplace (pre ++ X) pre ("") = X := by
  obtain ⟨p, ps, hd⟩ : ∃ p ps, pre.data = p :: ps := by
    cases hpre2 : pre.data with
    | nil => exact absurd hpre2 hne
    | cons a as => exact ⟨a, as, rfl⟩
  unfold pyReplace
  rw [String.data_append, hd]
  have h0 : ("" : String).data = [] := rfl
  rw [h0, replaceAll_strip p ps X.data (hd ▸ hX)]

theorem pyStartsWith_append (pre X : String) : pyStartsWith (pre ++ X) pre = true := by
  unfold pyStartsWith
  rw [String.data_append]
  exact isPrefixOf_append_self _ _

/-- Claim C1, counterexample: the claim predicts that the item id is the
remainder of the path after the fixed route; but `str.replace` removes all
occurrences of the route from the whole path, so for the id
`a/api/market/item/b` the issued upstream URL ends in `ab`, not in the id
itself. -/
theorem relay_item_verbatim_cex :
    (do_GET stubUpstream stubStatic (itemRoute ++ ("a/api/market/item/b"))).2 ≠
      [UpstreamReq.get (upstreamItemBase ++ ("a/api/market/item/b"))] ∧
    (do_GET stubUpstream stubStatic (itemRoute ++ ("a/api/market/item/b"))).2 =
      [UpstreamReq.get (upstreamItemBase ++ ("ab"))] := by decide

/-- Claim C1 (amended): for every item id X that does not itself contain
the route string `/api/market/item/`, a GET whose path is the route
followed by X issues exactly one upstream GET whose URL is the upstream
item base followed by X verbatim; when X does contain the route string,
every occurrence of it is removed before substitution. -/
theorem relay_item_single_upstream (u : UpstreamReq → UpstreamResult)
    (s : String → Nat × List (String × String) × List Nat) (X : String)
    (hX : containsSub itemRoute.data X.data = false) :
    (do_GET u s (itemRoute ++ X)).2 = [UpstreamReq.get (upstreamItemBase ++ X)] := by
  have h1 : pyStartsWith (itemRoute ++ X) itemRoute = true := pyStartsWith_append _ _
  have h2 : itemApiUrl (itemRoute ++ X) = upstreamItemBase ++ X := by
    unfold itemApiUrl
    rw [pyReplace_strip itemRoute X (by decide) hX]
  simp [do_GET, h1, h2]

/-- Claim C1 witness: the id 123 contains no route occurrence, and the
relay issues exactly the predicted single upstream GET. -/
theorem relay_item_single_upstream_witness :
    containsSub itemRoute.data (("123") : String).data = false ∧
    (do_GET stubUpstream stubStatic (itemRoute ++ ("123"))).2 =
      [UpstreamReq.get (upstreamItemBase ++ ("123"))] :=
  ⟨by decide, relay_item_single_upstream stubUpstream stubStatic ("123") (by decide)⟩

/-- Claim C10: a GET for the exact path `/api/market/item` (no trailing
slash) issues no upstream request and is answered by the static file
server. -/
theorem item_no_slash_static (u : UpstreamReq → UpstreamResult)
    (s : String → Nat × List (String × String) × List Nat) :
    (do_GET u s ("/api/market/item")).2 = [] ∧
    (do_GET u s ("/api/market/item")).1 =
      mkResponse (s ("/api/market/item")).1 (s ("/api/market/item")).2.1
        (s ("/api/market/item")).2.2 := by
  have hp : pyStartsWith ("/api/market/item") itemRoute = false := by decide
  simp [do_GET, hp]

/-- Claim C2, counterexample: the upstream 404 carries a non-empty body,
but the GET relay discards it and sends the synthesized generic message
instead, so the response body is not the upstream body. -/
theorem item_get_error_body_cex :
    upstream404 (UpstreamReq.get (itemApiUrl ("/api/market/item/7"))) =
      UpstreamResult.httpError 404 (some ("item missing")) ∧
    (do_GET upstream404 stubStatic ("/api/market/item/7")).1.body ≠
      strToBytes ("item missing") ∧
    (do_GET upstream404 stubStatic ("/api/market/item/7")).1.body =
      jsonErrorBytes ("API returned status 404") := by decide

/-- Claim C2 (amended): for a GET item request on which the upstream
raises an HTTPError, the relay copies the upstream status code but always
sends the synthesized body about that status, with Content-Type
application/json; the upstream error body is never forwarded on this
route. -/
theorem item_get_http_error_generic (u : UpstreamReq → UpstreamResult)
    (s : String → Nat × List (String × String) × List Nat)
    (path : String) (code : Nat) (eb : Option String)
    (hp : pyStartsWith path itemRoute = true)
    (hu : u (UpstreamReq.get (itemApiUrl path)) = UpstreamResult.httpError code eb) :
    (do_GET u s path).1.status = code ∧
    (do_GET u s path).1.body = jsonErrorBytes ("API returned status " ++ toString code) ∧
    ("Content-Type", "application/json") ∈ (do_GET u s path).1.headers := by
  simp [do_GET, hp, hu, mkResponse, ctJson, corsHeaders]

/-- Claim C2 witness: a concrete 404 with a body present still yields the
generic message with the copied status. -/
theorem item_get_http_error_generic_witness :
    pyStartsWith ("/api/market/item/7") itemRoute = true ∧
    upstream404 (UpstreamReq.get (itemApiUrl ("/api/market/item/7"))) =
      UpstreamResult.httpError 404 (some ("item missing")) ∧
    ((do_GET upstream404 stubStatic ("/api/market/item/7")).1.status = 404 ∧
     (do_GET upstream404 stubStatic ("/api/market/item/7")).1.body =
       jsonErrorBytes ("API returned status " ++ toString 404) ∧
     ("Content-Type", "application/json") ∈
       (do_GET upstream404 stubStatic ("/api/market/item/7")).1.headers) :=
  ⟨by decide, rfl,
   item_get_http_error_generic upstream404 stubStatic ("/api/market/item/7") 404
     (some ("item missing")) (by decide) rfl⟩

/-- Claim C5, counterexample: urlopen succeeds on any 2xx reply, but the
relay sends the literal status 200 rather than copying the upstream
status, so a 204 success is answered with 200. -/
theorem relay_success_status_cex :
    upstream204 (UpstreamReq.get (itemApiUrl ("/api/market/item/5"))) =
      UpstreamResult.success 204 (strToBytes ("no content")) ∧
    (do_GET upstream204 stubStatic ("/api/market/item/5")).1.status = 200 ∧
    (do_GET upstream204 stubStatic ("/api/market/item/5")).1.status ≠ 204 := by decide

/-- Claim C5 (amended): when the upstream call of either relayed route
succeeds, the relay responds with the constant status 200 (whatever 2xx
status the upstream used) and a body equal byte-for-byte to the upstream
body, with Content-Type application/json. -/
theorem relay_success_fixed_200 {J : Type} (loads : List Nat → Except String J)
    (dumps : J → List Nat) (itemsLen : J → Except String Nat)
    (uG uP : UpstreamReq → UpstreamResult)
    (s : String → Nat × List (String × String) × List Nat)
    (pG pP : String) (clh : Option String) (rf : List Nat) (n : Int) (v : J) (k : Nat)
    (stG stP : Nat) (dataG dataP : List Nat)
    (hpG : pyStartsWith pG itemRoute = true)
    (huG : uG (UpstreamReq.get (itemApiUrl pG)) = UpstreamResult.success stG dataG)
    (hpP : pyStartsWith pP bulkRoute = true)
    (hn : getContentLength clh = Except.ok n)
    (hv : loads (readUpTo rf n) = Except.ok v)
    (hi : itemsLen v = Except.ok k)
    (huP : uP (UpstreamReq.post bulkUpstreamUrl [("Content-Type", "application/json")]
        (dumps v)) = UpstreamResult.success stP dataP) :
    ((do_GET uG s pG).1.status = 200 ∧ (do_GET uG s pG).1.body = dataG ∧
     ("Content-Type", "application/json") ∈ (do_GET uG s pG).1.headers) ∧
    ((do_POST loads dumps itemsLen uP pP clh rf).1.status = 200 ∧
     (do_POST loads dumps itemsLen uP pP clh rf).1.body = dataP ∧
     ("Content-Type", "application/json") ∈
       (do_POST loads dumps itemsLen uP pP clh rf).1.headers) := by
  constructor
  · simp [do_GET, hpG, huG, mkResponse, ctJson, corsHeaders]
  · simp [do_POST, hpP, hn, hv, hi, huP, mkResponse, ctJson, corsHeaders]

/-- Claim C5 witness: concrete 200 successes on both routes are relayed
with status 200 and the upstream bytes. -/
theorem relay_success_fixed_200_witness :
    pyStartsWith ("/api/market/item/9") itemRoute = true ∧
    upstream200 (UpstreamReq.get (itemApiUrl ("/api/market/item/9"))) =
      UpstreamResult.success 200 (strToBytes ("[]")) ∧
    pyStartsWith ("/api/market/prices/bulk") bulkRoute = true ∧
    getContentLength (some ("100")) = Except.ok 100 ∧
    demoLoads (readUpTo (demoDumps ()) 100) = Except.ok () ∧
    demoItemsLen () = Except.ok 2 ∧
    upstream200 (UpstreamReq.post bulkUpstreamUrl [("Content-Type", "application/json")]
      (demoDumps ())) = UpstreamResult.success 200 (strToBytes ("[]")) ∧
    (((do_GET upstream200 stubStatic ("/api/market/item/9")).1.status = 200 ∧
      (do_GET upstream200 stubStatic ("/api/market/item/9")).1.body = strToBytes ("[]") ∧
      ("Content-Type", "application/json") ∈
        (do_GET upstream200 stubStatic ("/api/market/item/9")).1.headers) ∧
     ((do_POST demoLoads demoDumps demoItemsLen upstream200 ("/api/market/prices/bulk")
         (some ("100")) (demoDumps ())).1.status = 200 ∧
      (do_POST demoLoads demoDumps demoItemsLen upstream200 ("/api/market/prices/bulk")
         (some ("100")) (demoDumps ())).1.body = strToBytes ("[]") ∧
      ("Content-Type", "application/json") ∈
        (do_POST demoLoads demoDumps demoItemsLen upstream200 ("/api/market/prices/bulk")
           (some ("100")) (demoDumps ())).1.headers)) :=
  ⟨by decide, rfl, by decide, rfl, rfl, rfl, rfl,
   relay_success_fixed_200 demoLoads demoDumps demoItemsLen upstream200 upstream200
     stubStatic ("/api/market/item/9") ("/api/market/prices/bulk") (some ("100"))
     (demoDumps ()) 100 () 2 200 200 (strToBytes ("[]")) (strToBytes ("[]"))
     (by decide) rfl (by decide) rfl rfl rfl rfl⟩

/-- Claim C3: on a bulk POST whose upstream raises an HTTPError, the relay
copies the upstream status; the body is the upstream error body verbatim
when that body is present and non-empty, and the synthesized status
message otherwise. -/
theorem bulk_http_error_forward {J : Type} (loads : List Nat → Except String J)
    (dumps : J → List Nat) (itemsLen : J → Except String Nat)
    (u : UpstreamReq → UpstreamResult)
    (path : String) (clh : Option String) (rf : List Nat) (n : Int) (v : J) (k : Nat)
    (code : Nat) (eb : Option String)
    (hp : pyStartsWith path bulkRoute = true)
    (hn : getContentLength clh = Except.ok n)
    (hv : loads (readUpTo rf n) = Except.ok v)
    (hi : itemsLen v = Except.ok k)
    (hu : u (UpstreamReq.post bulkUpstreamUrl [("Content-Type", "application/json")]
        (dumps v)) = UpstreamResult.httpError code eb) :
    (do_POST loads dumps itemsLen u path clh rf).1.status = code ∧
    (eb.getD ("") ≠ "" →
      (do_POST loads dumps itemsLen u path clh rf).1.body = strToBytes (eb.getD (""))) ∧
    (eb.getD ("") = "" →
      (do_POST loads dumps itemsLen u path clh rf).1.body =
        jsonErrorBytes ("API returned status " ++ toString code)) ∧
    ("Content-Type", "application/json") ∈
      (do_POST loads dumps itemsLen u path clh rf).1.headers := by
  by_cases hb : eb.getD ("") = ""
  · simp [do_POST, hp, hn, hv, hi, hu, hb, mkResponse, ctJson, corsHeaders]
  · simp [do_POST, hp, hn, hv, hi, hu, hb, mkResponse, ctJson, corsHeaders]

/-- Claim C3 witness: a concrete upstream 404 with a non-empty body is
forwarded verbatim with status 404. -/
theorem bulk_http_error_forward_witness :
    pyStartsWith ("/api/market/prices/bulk") bulkRoute = true ∧
    getContentLength (some ("100")) = Except.ok 100 ∧
    demoLoads (readUpTo (demoDumps ()) 100) = Except.ok () ∧
    demoItemsLen () = Except.ok 2 ∧
    upstream404 (UpstreamReq.post bulkUpstreamUrl [("Content-Type", "application/json")]
      (demoDumps ())) = UpstreamResult.httpError 404 (some ("item missing")) ∧
    ((do_POST demoLoads demoDumps demoItemsLen upstream404 ("/api/market/prices/bulk")
        (some ("100")) (demoDumps ())).1.status = 404 ∧
     ((some ("item missing")).getD ("") ≠ "" →
       (do_POST demoLoads demoDumps demoItemsLen upstream404 ("/api/market/prices/bulk")
          (some ("100")) (demoDumps ())).1.body =
         strToBytes ((some ("item missing")).getD (""))) ∧
     ((some ("item missing")).getD ("") = "" →
       (do_POST demoLoads demoDumps demoItemsLen upstream404 ("/api/market/prices/bulk")
          (some ("100")) (demoDumps ())).1.body =
         jsonErrorBytes ("API returned status " ++ toString 404)) ∧
     ("Content-Type", "application/json") ∈
       (do_POST demoLoads demoDumps demoItemsLen upstream404 ("/api/market/prices/bulk")
          (some ("100")) (demoDumps ())).1.headers) :=
  ⟨by decide, rfl, rfl, rfl, rfl,
   bulk_http_error_forward demoLoads demoDumps demoItemsLen upstream404
     ("/api/market/prices/bulk") (some ("100")) (demoDumps ()) 100 () 2 404
     (some ("item missing")) (by decide) rfl rfl rfl rfl⟩

/-- Claim C6, counterexample: the body [1, 2] is valid JSON, yet line 39
evaluates len(request_body.get(...)) before the upstream Request is built,
and .get raises AttributeError on the parsed list; the relay answers 500
with str(e) and issues no upstream POST at all. -/
theorem bulk_nondict_payload_cex :
    listLoads (readUpTo (strToBytes ("[1, 2]")) 6) = Except.ok () ∧
    (do_POST listLoads demoDumps listItemsLen upstream200 ("/api/market/prices/bulk")
       (some ("6")) (strToBytes ("[1, 2]"))).2 = [] ∧
    (do_POST listLoads demoDumps listItemsLen upstream200 ("/api/market/prices/bulk")
       (some ("6")) (strToBytes ("[1, 2]"))).1.status = 500 ∧
    (do_POST listLoads demoDumps listItemsLen upstream200 ("/api/market/prices/bulk")
       (some ("6")) (strToBytes ("[1, 2]"))).1.body = jsonErrorBytes pyListGetMsg :=
  ⟨rfl, by decide, by decide, by decide⟩

/-- Claim C6 (amended): for a bulk POST whose body parses as JSON, if the
logging line's evaluation of len(request_body.get("itemIds", [])) succeeds
(the parsed value is a dict whose itemIds value, defaulting to the empty
list, is sized), the relay issues exactly one upstream POST to the fixed
bulk URL carrying the re-serialization of the parsed value and the
Content-Type application/json header, whatever the upstream then answers;
if that evaluation raises (e.g. a valid-JSON non-dict body), the relay
issues no upstream request and answers 500 with the exception text. -/
theorem bulk_forwards_payload {J : Type} (loads : List Nat → Except String J)
    (dumps : J → List Nat) (itemsLen : J → Except String Nat)
    (u : UpstreamReq → UpstreamResult)
    (path : String) (clh : Option String) (rf : List Nat) (n : Int) (v : J)
    (hp : pyStartsWith path bulkRoute = true)
    (hn : getContentLength clh = Except.ok n)
    (hv : loads (readUpTo rf n) = Except.ok v) :
    (∀ k : Nat, itemsLen v = Except.ok k →
      (do_POST loads dumps itemsLen u path clh rf).2 =
        [UpstreamReq.post bulkUpstreamUrl [("Content-Type", "application/json")]
          (dumps v)]) ∧
    (∀ msg : String, itemsLen v = Except.error msg →
      (do_POST loads dumps itemsLen u path clh rf).2 = [] ∧
      (do_POST loads dumps itemsLen u path clh rf).1.status = 500 ∧
      (do_POST loads dumps itemsLen u path clh rf).1.body = jsonErrorBytes msg) := by
  constructor
  · intro k hk
    simp [do_POST, hp, hn, hv, hk]
  · intro msg hm
    simp [do_POST, hp, hn, hv, hm, mkResponse]

/-- Claim C6 witness: the concrete dict payload passes the logging line
and round-trips into a single upstream POST with the JSON content type. -/
theorem bulk_forwards_payload_witness :
    pyStartsWith ("/api/market/prices/bulk") bulkRoute = true ∧
    getContentLength (some ("100")) = Except.ok 100 ∧
    demoLoads (readUpTo (demoDumps ()) 100) = Except.ok () ∧
    ((∀ k : Nat, demoItemsLen () = Except.ok k →
       (do_POST demoLoads demoDumps demoItemsLen upstream200 ("/api/market/prices/bulk")
          (some ("100")) (demoDumps ())).2 =
         [UpstreamReq.post bulkUpstreamUrl [("Content-Type", "application/json")]
           (demoDumps ())]) ∧
     (∀ msg : String, demoItemsLen () = Except.error msg →
       (do_POST demoLoads demoDumps demoItemsLen upstream200 ("/api/market/prices/bulk")
          (some ("100")) (demoDumps ())).2 = [] ∧
       (do_POST demoLoads demoDumps demoItemsLen upstream200 ("/api/market/prices/bulk")
          (some ("100")) (demoDumps ())).1.status = 500 ∧
       (do_POST demoLoads demoDumps demoItemsLen upstream200 ("/api/market/prices/bulk")
          (some ("100")) (demoDumps ())).1.body = jsonErrorBytes msg)) :=
  ⟨by decide, rfl, rfl,
   bulk_forwards_payload demoLoads demoDumps demoItemsLen upstream200
     ("/api/market/prices/bulk") (some ("100")) (demoDumps ()) 100 ()
     (by decide) rfl rfl⟩

/-- Claim C8, counterexample: the route test is a prefix test, so a POST
to `/api/market/prices/bulk/extra` -- a path different from the bulk
endpoint -- is not answered 405 but relayed upstream. -/
theorem post_bulk_route_cex :
    ("/api/market/prices/bulk/extra" ≠ bulkRoute) ∧
    (do_POST demoLoads demoDumps demoItemsLen upstream200
       ("/api/market/prices/bulk/extra")
       (some ("100")) (demoDumps ())).1.status ≠ 405 ∧
    (do_POST demoLoads demoDumps demoItemsLen upstream200
       ("/api/market/prices/bulk/extra")
       (some ("100")) (demoDumps ())).2 ≠ [] := by decide

/-- Claim C8 (amended): a POST whose path does not start with
`/api/market/prices/bulk` is answered 405 with the fixed error body and no
upstream request is issued. -/
theorem post_non_bulk_405 {J : Type} (loads : List Nat → Except String J)
    (dumps : J → List Nat) (itemsLen : J → Except String Nat)
    (u : UpstreamReq → UpstreamResult)
    (path : String) (clh : Option String) (rf : List Nat)
    (hp : pyStartsWith path bulkRoute = false) :
    (do_POST loads dumps itemsLen u path clh rf).1.status = 405 ∧
    (do_POST loads dumps itemsLen u path clh rf).1.body =
      strToBytes ("\x7b\"error\": \"Method not allowed\"\x7d") ∧
    (do_POST loads dumps itemsLen u path clh rf).2 = [] := by
  have hb : jsonErrorBytes ("Method not allowed") =
      strToBytes ("\x7b\"error\": \"Method not allowed\"\x7d") := by decide
  refine ⟨?_, ?_, ?_⟩
  · simp [do_POST, hp, mkResponse]
  · simp [do_POST, hp, mkResponse, hb]
  · simp [do_POST, hp]

/-- Claim C8 witness: a POST to an unrelated path gets the 405 error and
no upstream request. -/
theorem post_non_bulk_405_witness :
    pyStartsWith ("/api/upload") bulkRoute = false ∧
    ((do_POST demoLoads demoDumps demoItemsLen upstream200
        ("/api/upload") none []).1.status = 405 ∧
     (do_POST demoLoads demoDumps demoItemsLen upstream200
        ("/api/upload") none []).1.body =
       strToBytes ("\x7b\"error\": \"Method not allowed\"\x7d") ∧
     (do_POST demoLoads demoDumps demoItemsLen upstream200
        ("/api/upload") none []).2 = []) :=
  ⟨by decide,
   post_non_bulk_405 demoLoads demoDumps demoItemsLen upstream200 ("/api/upload")
     none [] (by decide)⟩

/-- Claim C9: a bulk POST with no Content-Length header, or with a
declared length of 0, reads the empty body; its JSON parse fails (as
CPython's json.loads does on the empty document, carried here as the
hypothesis on `loads`), no upstream request is issued, and the relay
answers 500 with the JSON error object for the parser's message. -/
theorem bulk_empty_body_500 {J : Type} (loads : List Nat → Except String J)
    (dumps : J → List Nat) (itemsLen : J → Except String Nat)
    (u : UpstreamReq → UpstreamResult)
    (path : String) (clh : Option String) (rf : List Nat) (msg : String)
    (hp : pyStartsWith path bulkRoute = true)
    (hclh : clh = none ∨ clh = some ("0"))
    (hl : loads [] = Except.error msg) :
    (do_POST loads dumps itemsLen u path clh rf).1.status = 500 ∧
    (do_POST loads dumps itemsLen u path clh rf).1.body = jsonErrorBytes msg ∧
    (do_POST loads dumps itemsLen u path clh rf).2 = [] := by
  have hn : getContentLength clh = Except.ok 0 := by
    rcases hclh with h | h <;> subst h <;> rfl
  have hr : readUpTo rf 0 = [] := by simp [readUpTo]
  simp [do_POST, hp, hn, hr, hl, mkResponse]

/-- Claim C9 witness: a bulk POST without Content-Length, over a stream
that does hold bytes, still parses the empty body, fails, and is answered
500 with no upstream request. -/
theorem bulk_empty_body_500_witness :
    pyStartsWith ("/api/market/prices/bulk") bulkRoute = true ∧
    (((none : Option String) = none) ∨ ((none : Option String) = some ("0"))) ∧
    demoLoads [] = Except.error ("Expecting value: line 1 column 1 (char 0)") ∧
    ((do_POST demoLoads demoDumps demoItemsLen upstream200
        ("/api/market/prices/bulk") none (demoDumps ())).1.status = 500 ∧
     (do_POST demoLoads demoDumps demoItemsLen upstream200
        ("/api/market/prices/bulk") none (demoDumps ())).1.body =
       jsonErrorBytes ("Expecting value: line 1 column 1 (char 0)") ∧
     (do_POST demoLoads demoDumps demoItemsLen upstream200
        ("/api/market/prices/bulk") none (demoDumps ())).2 = []) :=
  ⟨by decide, Or.inl rfl, rfl,
   bulk_empty_body_500 demoLoads demoDumps demoItemsLen upstream200
     ("/api/market/prices/bulk") none (demoDumps ())
     ("Expecting value: line 1 column 1 (char 0)") (by decide) (Or.inl rfl) rfl⟩

/-- The three CORS headers the spec requires on every response. -/
def hasCors (r : Response) : Prop :=
  ("Access-Control-Allow-Origin", "*") ∈ r.headers ∧
  ("Access-Control-Allow-Methods", "GET, POST, OPTIONS") ∈ r.headers ∧
  ("Access-Control-Allow-Headers", "Content-Type") ∈ r.headers

theorem cors_mkResponse (st : Nat) (hs : List (String × String)) (b : List Nat) :
    hasCors (mkResponse st hs b) := by
  simp [hasCors, mkResponse, corsHeaders]

/-- Claim C4: every response of the handler, for any method, path and
outcome -- relayed success, upstream HTTP error, local error, 405,
OPTIONS preflight or static serving -- carries the three CORS headers,
because every write is flushed through the overridden end_headers. -/
theorem every_response_cors {J : Type} (loads : List Nat → Except String J)
    (dumps : J → List Nat) (itemsLen : J → Except String Nat)
    (u : UpstreamReq → UpstreamResult)
    (s : String → Nat × List (String × String) × List Nat)
    (pG pP : String) (clh : Option String) (rf : List Nat) :
    hasCors (do_GET u s pG).1 ∧ hasCors (do_POST loads dumps itemsLen u pP clh rf).1 ∧
    hasCors do_OPTIONS := by
  refine ⟨?_, ?_, cors_mkResponse 200 [] []⟩
  · cases hb : pyStartsWith pG itemRoute
    · simp [do_GET, hb, hasCors, mkResponse, corsHeaders]
    · cases hu : u (UpstreamReq.get (itemApiUrl pG)) with
      | success st data => simp [do_GET, hb, hu, hasCors, mkResponse, corsHeaders]
      | httpError code eb => simp [do_GET, hb, hu, hasCors, mkResponse, corsHeaders]
      | exn msg => simp [do_GET, hb, hu, hasCors, mkResponse, corsHeaders]
  · cases hb : pyStartsWith pP bulkRoute
    · simp [do_POST, hb, hasCors, mkResponse, corsHeaders]
    · cases hcl : getContentLength clh with
      | error msg => simp [do_POST, hb, hcl, hasCors, mkResponse, corsHeaders]
      | ok n =>
        cases hld : loads (readUpTo rf n) with
        | error msg => simp [do_POST, hb, hcl, hld, hasCors, mkResponse, corsHeaders]
        | ok v =>
          cases hil : itemsLen v with
          | error msg =>
            simp [do_POST, hb, hcl, hld, hil, hasCors, mkResponse, corsHeaders]
          | ok k =>
            cases hu : u (UpstreamReq.post bulkUpstreamUrl
                [("Content-Type", "application/json")] (dumps v)) with
            | success st data =>
              simp [do_POST, hb, hcl, hld, hil, hu, hasCors, mkResponse, corsHeaders]
            | httpError code eb =>
              by_cases he : eb.getD ("") = ""
              · simp [do_POST, hb, hcl, hld, hil, hu, he, hasCors, mkResponse, corsHeaders]
              · simp [do_POST, hb, hcl, hld, hil, hu, he, hasCors, mkResponse, corsHeaders]
            | exn msg =>
              simp [do_POST, hb, hcl, hld, hil, hu, hasCors, mkResponse, corsHeaders]

/-- Claim C7: on either relayed route, any failure that is not an
upstream HTTPError -- an unreachable upstream or connection error
(modelled by the oracle's `exn` outcome carrying `str(e)`, non-empty for
these exception classes), or a JSON parse error of the POST body -- is
caught and answered with HTTP 500 and the JSON object whose error key
holds the exception text, as application/json; the handler returns a
response in every such case rather than letting the failure escape. -/
theorem transport_error_500 {J : Type} (loadsA loadsB : List Nat → Except String J)
    (dumps : J → List Nat) (itemsLen : J → Except String Nat)
    (uG uP : UpstreamReq → UpstreamResult)
    (s : String → Nat × List (String × String) × List Nat)
    (pG pP1 pP2 : String) (clh1 clh2 : Option String) (rf1 rf2 : List Nat)
    (n1 n2 : Int) (v : J) (k : Nat) (msgG msgP msgL : String)
    (hpG : pyStartsWith pG itemRoute = true)
    (hmG : msgG ≠ "")
    (huG : uG (UpstreamReq.get (itemApiUrl pG)) = UpstreamResult.exn msgG)
    (hpP1 : pyStartsWith pP1 bulkRoute = true)
    (hn1 : getContentLength clh1 = Except.ok n1)
    (hv1 : loadsA (readUpTo rf1 n1) = Except.ok v)
    (hi : itemsLen v = Except.ok k)
    (hmP : msgP ≠ "")
    (huP : uP (UpstreamReq.post bulkUpstreamUrl [("Content-Type", "application/json")]
        (dumps v)) = UpstreamResult.exn msgP)
    (hpP2 : pyStartsWith pP2 bulkRoute = true)
    (hn2 : getContentLength clh2 = Except.ok n2)
    (hmL : msgL ≠ "")
    (hv2 : loadsB (readUpTo rf2 n2) = Except.error msgL) :
    ((do_GET uG s pG).1.status = 500 ∧
     (do_GET uG s pG).1.body = jsonErrorBytes msgG ∧
     ("Content-Type", "application/json") ∈ (do_GET uG s pG).1.headers) ∧
    ((do_POST loadsA dumps itemsLen uP pP1 clh1 rf1).1.status = 500 ∧
     (do_POST loadsA dumps itemsLen uP pP1 clh1 rf1).1.body = jsonErrorBytes msgP ∧
     ("Content-Type", "application/json") ∈
       (do_POST loadsA dumps itemsLen uP pP1 clh1 rf1).1.headers) ∧
    ((do_POST loadsB dumps itemsLen uP pP2 clh2 rf2).1.status = 500 ∧
     (do_POST loadsB dumps itemsLen uP pP2 clh2 rf2).1.body = jsonErrorBytes msgL ∧
     ("Content-Type", "application/json") ∈
       (do_POST loadsB dumps itemsLen uP pP2 clh2 rf2).1.headers ∧
     (do_POST loadsB dumps itemsLen uP pP2 clh2 rf2).2 = []) := by
  refine ⟨?_, ?_, ?_⟩
  · simp [do_GET, hpG, huG, mkResponse, ctJson, corsHeaders]
  · simp [do_POST, hpP1, hn1, hv1, hi, huP, mkResponse, ctJson, corsHeaders]
  · simp [do_POST, hpP2, hn2, hv2, mkResponse, ctJson, corsHeaders]

/-- Claim C7 witness: an unreachable upstream on both routes and a parse
failure of the empty POST body each yield 500 with the exception text. -/
theorem transport_error_500_witness :
    pyStartsWith ("/api/market/item/3") itemRoute = true ∧
    (("connection refused" : String) ≠ "") ∧
    stubUpstream (UpstreamReq.get (itemApiUrl ("/api/market/item/3"))) =
      UpstreamResult.exn ("connection refused") ∧
    pyStartsWith ("/api/market/prices/bulk") bulkRoute = true ∧
    getContentLength (some ("100")) = Except.ok 100 ∧
    demoLoads (readUpTo (demoDumps ()) 100) = Except.ok () ∧
    demoItemsLen () = Except.ok 2 ∧
    stubUpstream (UpstreamReq.post bulkUpstreamUrl [("Content-Type", "application/json")]
      (demoDumps ())) = UpstreamResult.exn ("connection refused") ∧
    (("Expecting value: line 1 column 1 (char 0)" : String) ≠ "") ∧
    demoLoads (readUpTo [] 100) = Except.error ("Expecting value: line 1 column 1 (char 0)") ∧
    (((do_GET stubUpstream stubStatic ("/api/market/item/3")).1.status = 500 ∧
      (do_GET stubUpstream stubStatic ("/api/market/item/3")).1.body =
        jsonErrorBytes ("connection refused") ∧
      ("Content-Type", "application/json") ∈
        (do_GET stubUpstream stubStatic ("/api/market/item/3")).1.headers) ∧
     ((do_POST demoLoads demoDumps demoItemsLen stubUpstream
         ("/api/market/prices/bulk")
         (some ("100")) (demoDumps ())).1.status = 500 ∧
      (do_POST demoLoads demoDumps demoItemsLen stubUpstream
         ("/api/market/prices/bulk")
         (some ("100")) (demoDumps ())).1.body = jsonErrorBytes ("connection refused") ∧
      ("Content-Type", "application/json") ∈
        (do_POST demoLoads demoDumps demoItemsLen stubUpstream
           ("/api/market/prices/bulk")
           (some ("100")) (demoDumps ())).1.headers) ∧
     ((do_POST demoLoads demoDumps demoItemsLen stubUpstream
         ("/api/market/prices/bulk")
         (some ("100")) []).1.status = 500 ∧
      (do_POST demoLoads demoDumps demoItemsLen stubUpstream
         ("/api/market/prices/bulk")
         (some ("100")) []).1.body =
        jsonErrorBytes ("Expecting value: line 1 column 1 (char 0)") ∧
      ("Content-Type", "application/json") ∈
        (do_POST demoLoads demoDumps demoItemsLen stubUpstream
           ("/api/market/prices/bulk")
           (some ("100")) []).1.headers ∧
      (do_POST demoLoads demoDumps demoItemsLen stubUpstream
         ("/api/market/prices/bulk")
         (some ("100")) []).2 = [])) :=
  ⟨by decide, by decide, rfl, by decide, rfl, rfl, rfl, rfl, by decide, rfl,
   transport_error_500 demoLoads demoLoads demoDumps demoItemsLen stubUpstream
     stubUpstream stubStatic
     ("/api/market/item/3") ("/api/market/prices/bulk") ("/api/market/prices/bulk")
     (some ("100")) (some ("100")) (demoDumps ()) [] 100 100 () 2
     ("connection refused") ("connection refused")
     ("Expecting value: line 1 column 1 (char 0)")
     (by decide) (by decide) rfl (by decide) rfl rfl rfl (by decide) rfl
     (by decide) rfl (by decide) rfl⟩
